import Mathlib

/-!
# Verification of the octorus AI-rally adapter layer

Shallow embedding of `src/ai/adapters/claude.rs` (Adapter A, single-shot
JSON CLI), `src/ai/adapters/codex.rs` (Adapter B, streaming line-delimited
CLI), and the rally state machine of the orchestrator.

Modelling conventions:
* The JSON values carried by the wire protocol are modelled post-decode:
  an envelope's `result` field (`serde_json::Value` in the source, decoded
  by the parse functions via `serde_json::from_value`) is typed here as an
  already-decoded raw payload `Option R`.  The decode step itself is
  orthogonal to every property proved below, which all concern the
  validation logic applied after decoding.
* The concurrent `tokio::select!` read loops are modelled as deterministic
  folds over a *trace*: the list of read-events (a stdout line, a stdout
  end-of-file, a stderr line, ...) in the realized interleaving order.
  A property quantified over traces holds for every possible interleaving.
* `child.wait()` (reaping the process) is recorded by a `reaped` flag in
  the run result, and the trace suffix the loop never read is returned as
  `unread`, so that drain/reap behaviour is visible in the model.
* Machine integers: `line: u32` is a `Nat` (no arithmetic is performed on
  it anywhere in the source), exit statuses are a `Nat` code with success
  iff the code is zero (signal terminations are out of scope).
-/

namespace Octorus

/-! ## Output model (`src/ai/adapter.rs`, re-exported shapes observed in
`src/ui/ai_rally.rs` and both adapters) -/

inductive ReviewAction where
  | Approve
  | RequestChanges
  | Comment
deriving DecidableEq, Repr

inductive CommentSeverity where
  | Critical
  | Major
  | Minor
  | Suggestion
deriving DecidableEq, Repr

inductive RevieweeStatus where
  | Completed
  | NeedsClarification
  | NeedsPermission
  | Error
deriving DecidableEq, Repr

structure PermissionRequest where
  action : String
  reason : String
deriving DecidableEq, Repr

structure ReviewComment where
  path : String
  line : Nat
  body : String
  severity : CommentSeverity
deriving DecidableEq, Repr

structure ReviewerOutput where
  action : ReviewAction
  summary : String
  comments : List ReviewComment
  blocking_issues : List String
deriving DecidableEq, Repr

structure RevieweeOutput where
  status : RevieweeStatus
  summary : String
  files_modified : List String
  question : Option String
  permission_request : Option PermissionRequest
  error_details : Option String
deriving DecidableEq, Repr

/-! ## Raw (pre-validation) payload shapes, shared verbatim by both
adapters (`RawReviewerOutput` etc. are textually duplicated in
`claude.rs` and `codex.rs`; the shapes are identical) -/

structure RawReviewComment where
  path : String
  line : Nat
  body : String
  severity : String
deriving DecidableEq, Repr

structure RawReviewerOutput where
  action : String
  summary : String
  comments : List RawReviewComment
  blocking_issues : List String
deriving DecidableEq, Repr

structure RawPermissionRequest where
  action : String
  reason : String
deriving DecidableEq, Repr

structure RawRevieweeOutput where
  status : String
  summary : String
  files_modified : List String
  question : Option String
  permission_request : Option RawPermissionRequest
  error_details : Option String
deriving DecidableEq, Repr

/-! ## Adapter errors

The source mixes `anyhow!` string errors and the structured `CodexError`
enum; each distinct error construction site gets its own constructor here,
carrying the data the source puts into the message. -/

inductive AdapterError where
  /-- `CodexError::TurnFailed { reason }` -/
  | turnFailed (reason : String)
  /-- `CodexError::AuthenticationFailed` -/
  | authenticationFailed
  /-- `anyhow!("... process failed with status {}: {}", status, stderr)` -/
  | processFailed (code : Nat) (stderr : String)
  /-- `anyhow!("Claude process failed: {}", stderr)` (continue_session:
  the message carries no exit code) -/
  | continueFailed (stderr : String)
  /-- `anyhow!("Error reading stdout: {}", e)` -/
  | stdoutReadError (msg : String)
  /-- `anyhow!("Error reading stderr: {}", e)` -/
  | stderrReadError (msg : String)
  /-- `anyhow!("No result in claude/codex response")` /
  `anyhow!("No result received from codex")` -/
  | noResult (msg : String)
  /-- `anyhow!("Unknown review action: {}", action)` -/
  | unknownAction (action : String)
  /-- `anyhow!("Unknown reviewee status: {}", status)` -/
  | unknownStatus (status : String)
  /-- `anyhow!("No reviewer/reviewee session to continue")` -/
  | noSession (msg : String)
  /-- `.context("Failed to parse ... output as JSON")` decode failures -/
  | decodeError (msg : String)
deriving DecidableEq, Repr

/-- Rust `str::contains` (substring test), used on the captured stderr
text for the authentication check. -/
def strContains (haystack needle : String) : Bool :=
  (haystack.splitOn needle).length != 1

namespace Claude

/-! ## Adapter A — `src/ai/adapters/claude.rs` -/

/-- `struct ClaudeResponse { session_id, result: Option<Value>, .. }`.
`cost_usd` and `duration_ms` are omitted: no code reads them.  `result`
is typed post-decode (see file header). -/
structure ClaudeResponse (R : Type) where
  session_id : String
  result : Option R
deriving DecidableEq, Repr

/-- The comment-conversion closure inside `parse_reviewer_output`
(claude.rs lines 266-284): the severity match falls back to `Minor` on
any unrecognized string. -/
def convert_comment (c : RawReviewComment) : ReviewComment :=
  { path := c.path
    line := c.line
    body := c.body
    severity :=
      match c.severity with
      | "critical" => CommentSeverity.Critical
      | "major" => CommentSeverity.Major
      | "minor" => CommentSeverity.Minor
      | "suggestion" => CommentSeverity.Suggestion
      | _ => CommentSeverity.Minor }

/-- `parse_reviewer_output` (claude.rs lines 250-292). -/
def parse_reviewer_output (response : ClaudeResponse RawReviewerOutput) :
    Except AdapterError ReviewerOutput :=
  match response.result with
  | none => Except.error (AdapterError.noResult "No result in claude response")
  | some raw =>
    match raw.action with
    | "approve" =>
      Except.ok { action := ReviewAction.Approve, summary := raw.summary
                  comments := raw.comments.map convert_comment
                  blocking_issues := raw.blocking_issues }
    | "request_changes" =>
      Except.ok { action := ReviewAction.RequestChanges, summary := raw.summary
                  comments := raw.comments.map convert_comment
                  blocking_issues := raw.blocking_issues }
    | "comment" =>
      Except.ok { action := ReviewAction.Comment, summary := raw.summary
                  comments := raw.comments.map convert_comment
                  blocking_issues := raw.blocking_issues }
    | other => Except.error (AdapterError.unknownAction other)

/-- `parse_reviewee_output` (claude.rs lines 294-324).  Note: `question`,
`permission_request` and `error_details` are copied through unchanged,
whatever the status. -/
def parse_reviewee_output (response : ClaudeResponse RawRevieweeOutput) :
    Except AdapterError RevieweeOutput :=
  match response.result with
  | none => Except.error (AdapterError.noResult "No result in claude response")
  | some raw =>
    match (match raw.status with
           | "completed" => Except.ok RevieweeStatus.Completed
           | "needs_clarification" => Except.ok RevieweeStatus.NeedsClarification
           | "needs_permission" => Except.ok RevieweeStatus.NeedsPermission
           | "error" => Except.ok RevieweeStatus.Error
           | other => Except.error (AdapterError.unknownStatus other)) with
    | Except.error e => Except.error e
    | Except.ok status =>
      Except.ok { status := status, summary := raw.summary
                  files_modified := raw.files_modified
                  question := raw.question
                  permission_request :=
                    raw.permission_request.map
                      (fun p => { action := p.action, reason := p.reason })
                  error_details := raw.error_details }

/-- One observed read in `run_claude`'s `tokio::select!` loop
(claude.rs lines 70-87): a stdout line, stdout end-of-file, a stdout
read error, a stderr line, stderr end-of-file, or a stderr read error.
A trace lists these in realized interleaving order. -/
inductive ClaudeIOItem where
  | outLine (s : String)
  | outEof
  | outErr (msg : String)
  | errLine (s : String)
  | errEof
  | errErr (msg : String)
deriving DecidableEq, Repr

/-- Result of a modelled `run_claude` invocation.  `reaped` records
whether `child.wait()` was executed before the return; `unread` is the
trace suffix the loop never consumed. -/
structure ClaudeRunResult (R : Type) where
  outcome : Except AdapterError (ClaudeResponse R)
  reaped : Bool
  unread : List ClaudeIOItem
deriving Repr

/-- How the select loop ended: an early `return Err(..)` (read error),
or the `break` on stdout end-of-file / stream exhaustion, with the
accumulated stdout and stderr lines. -/
inductive ClaudeLoopExit where
  | aborted (e : AdapterError) (unread : List ClaudeIOItem)
  | finished (output_lines error_lines : List String) (unread : List ClaudeIOItem)
deriving DecidableEq, Repr

/-- The `loop { tokio::select! { .. } }` of `run_claude` (lines 70-87):
stdout lines accumulate; stdout EOF breaks the loop (stderr EOF does
not); a read error on either stream returns immediately. -/
def claudeLoop : List ClaudeIOItem → List String → List String → ClaudeLoopExit
  | [], output_lines, error_lines =>
    ClaudeLoopExit.finished output_lines error_lines []
  | item :: rest, output_lines, error_lines =>
    match item with
    | ClaudeIOItem.outLine s => claudeLoop rest (output_lines ++ [s]) error_lines
    | ClaudeIOItem.outEof => ClaudeLoopExit.finished output_lines error_lines rest
    | ClaudeIOItem.outErr msg =>
      ClaudeLoopExit.aborted (AdapterError.stdoutReadError msg) rest
    | ClaudeIOItem.errLine s => claudeLoop rest output_lines (error_lines ++ [s])
    | ClaudeIOItem.errEof => claudeLoop rest output_lines error_lines
    | ClaudeIOItem.errErr msg =>
      ClaudeLoopExit.aborted (AdapterError.stderrReadError msg) rest

/-- `run_claude` (claude.rs lines 32-105) for a spawned child described
by its read trace and exit code.  `decode` stands for
`serde_json::from_str::<ClaudeResponse>` applied to the joined stdout. -/
def run_claude (decode : String → Except String (ClaudeResponse R))
    (trace : List ClaudeIOItem) (exitCode : Nat) : ClaudeRunResult R :=
  match claudeLoop trace [] [] with
  | ClaudeLoopExit.aborted e unread =>
    { outcome := Except.error e, reaped := false, unread := unread }
  | ClaudeLoopExit.finished output_lines error_lines unread =>
    if exitCode ≠ 0 then
      { outcome := Except.error
          (AdapterError.processFailed exitCode (String.intercalate "\n" error_lines))
        reaped := true, unread := unread }
    else
      match decode (String.intercalate "\n" output_lines) with
      | Except.error msg =>
        { outcome := Except.error (AdapterError.decodeError msg)
          reaped := true, unread := unread }
      | Except.ok resp =>
        { outcome := Except.ok resp, reaped := true, unread := unread }

/-- `continue_session` (claude.rs lines 107-127): uses `cmd.output()`,
which collects both streams whole and reaps the child; non-zero exit
fails with the stderr text (no exit code in this message). -/
def continue_session (decode : String → Except String (ClaudeResponse R))
    (exitCode : Nat) (stdout stderr : String) :
    Except AdapterError (ClaudeResponse R) :=
  if exitCode ≠ 0 then Except.error (AdapterError.continueFailed stderr)
  else
    match decode stdout with
    | Except.error msg => Except.error (AdapterError.decodeError msg)
    | Except.ok resp => Except.ok resp

/-- `struct ClaudeAdapter` (claude.rs lines 19-22). -/
structure ClaudeAdapter where
  reviewer_session_id : Option String
  reviewee_session_id : Option String
deriving DecidableEq, Repr

/-- `ClaudeAdapter::run_reviewer` (claude.rs lines 142-158): run, store
the session id, then parse.  The last component counts processes
spawned by the call. -/
def ClaudeAdapter.run_reviewer (self : ClaudeAdapter)
    (decode : String → Except String (ClaudeResponse RawReviewerOutput))
    (trace : List ClaudeIOItem) (exitCode : Nat) :
    Except AdapterError ReviewerOutput × ClaudeAdapter × Nat :=
  match run_claude decode trace exitCode with
  | { outcome := Except.error e, .. } => (Except.error e, self, 1)
  | { outcome := Except.ok resp, .. } =>
    (parse_reviewer_output resp,
     { self with reviewer_session_id := some resp.session_id }, 1)

/-- `ClaudeAdapter::run_reviewee` (claude.rs lines 160-176). -/
def ClaudeAdapter.run_reviewee (self : ClaudeAdapter)
    (decode : String → Except String (ClaudeResponse RawRevieweeOutput))
    (trace : List ClaudeIOItem) (exitCode : Nat) :
    Except AdapterError RevieweeOutput × ClaudeAdapter × Nat :=
  match run_claude decode trace exitCode with
  | { outcome := Except.error e, .. } => (Except.error e, self, 1)
  | { outcome := Except.ok resp, .. } =>
    (parse_reviewee_output resp,
     { self with reviewee_session_id := some resp.session_id }, 1)

/-- `ClaudeAdapter::continue_reviewer` (claude.rs lines 178-187): an
empty reviewer session slot fails before any process is spawned and
leaves the adapter untouched. -/
def ClaudeAdapter.continue_reviewer (self : ClaudeAdapter)
    (decode : String → Except String (ClaudeResponse RawReviewerOutput))
    (exitCode : Nat) (stdout stderr : String) :
    Except AdapterError ReviewerOutput × ClaudeAdapter × Nat :=
  match self.reviewer_session_id with
  | none =>
    (Except.error (AdapterError.noSession "No reviewer session to continue"),
     self, 0)
  | some _ =>
    match continue_session decode exitCode stdout stderr with
    | Except.error e => (Except.error e, self, 1)
    | Except.ok resp => (parse_reviewer_output resp, self, 1)

/-- `ClaudeAdapter::continue_reviewee` (claude.rs lines 189-198). -/
def ClaudeAdapter.continue_reviewee (self : ClaudeAdapter)
    (decode : String → Except String (ClaudeResponse RawRevieweeOutput))
    (exitCode : Nat) (stdout stderr : String) :
    Except AdapterError RevieweeOutput × ClaudeAdapter × Nat :=
  match self.reviewee_session_id with
  | none =>
    (Except.error (AdapterError.noSession "No reviewee session to continue"),
     self, 0)
  | some _ =>
    match continue_session decode exitCode stdout stderr with
    | Except.error e => (Except.error e, self, 1)
    | Except.ok resp => (parse_reviewee_output resp, self, 1)

end Claude

namespace Codex

/-! ## Adapter B — `src/ai/adapters/codex.rs` -/

/-- `enum CodexItem` (codex.rs lines 396-416). -/
inductive CodexItem where
  | Command (command : String) (output : Option String)
  | Message (content : String)
  | FileChange (path : String) (diff : Option String)
  | Unknown
deriving DecidableEq, Repr

/-- `enum CodexEvent` (codex.rs lines 364-394).  The `result` payload of
`turn.completed` (`Option<serde_json::Value>` in the source) is typed
post-decode as `Option R` (see file header). -/
inductive CodexEvent (R : Type) where
  | ThreadStarted (thread_id : String)
  | TurnStarted (turn_id : Option String)
  | TurnCompleted (turn_id : Option String) (result : Option R)
  | TurnFailed (error : String)
  | ItemStarted (item : CodexItem)
  | ItemUpdated (item : CodexItem)
  | ItemCompleted (item : CodexItem)
  | Unknown
deriving DecidableEq, Repr

/-- `struct CodexResponse` (codex.rs lines 419-423). -/
structure CodexResponse (R : Type) where
  session_id : String
  result : Option R
deriving DecidableEq, Repr

/-- One stdout line as the stream loop sees it: empty after trimming
(skipped, codex.rs line 136), decodable into a `CodexEvent`, or
undecodable (`Err(_) => { /* ignore */ }`, line 146). -/
inductive CodexLine (R : Type) where
  | blank
  | event (e : CodexEvent R)
  | garbage
deriving DecidableEq, Repr

/-- One observed read in `run_codex_streaming`'s `tokio::select!` loop
(codex.rs lines 131-163), in realized interleaving order. -/
inductive CodexIOItem (R : Type) where
  | outLine (l : CodexLine R)
  | outEof
  | outErr (msg : String)
  | errLine (s : String)
  | errEof
  | errErr (msg : String)
deriving DecidableEq, Repr

/-- `handle_codex_event` (codex.rs lines 191-231).  Returns the
optionally-produced final response together with the new `thread_id`
state; `turn.failed` is the only erroring arm.  The event-sink sends
(`send_event`) cannot influence this result (their error is discarded,
codex.rs line 70) and are modelled separately by `channel_send`. -/
def handle_codex_event (ev : CodexEvent R) (thread_id : Option String) :
    Except AdapterError (Option (CodexResponse R) × Option String) :=
  match ev with
  | CodexEvent.ThreadStarted tid => Except.ok (none, some tid)
  | CodexEvent.TurnStarted _ => Except.ok (none, thread_id)
  | CodexEvent.TurnCompleted _ result =>
    match result with
    | some v =>
      Except.ok (some { session_id := thread_id.getD "", result := some v }, thread_id)
    | none => Except.ok (none, thread_id)
  | CodexEvent.TurnFailed e => Except.error (AdapterError.turnFailed e)
  | CodexEvent.ItemStarted _ => Except.ok (none, thread_id)
  | CodexEvent.ItemUpdated _ => Except.ok (none, thread_id)
  | CodexEvent.ItemCompleted _ => Except.ok (none, thread_id)
  | CodexEvent.Unknown => Except.ok (none, thread_id)

/-- How the NDJSON select loop ended: an early `return Err(..)`
(`turn.failed` via `?`, or a read error), or the `break` on stdout
end-of-file / stream exhaustion. -/
inductive CodexLoopExit (R : Type) where
  | aborted (e : AdapterError) (unread : List (CodexIOItem R))
  | finished (final_response : Option (CodexResponse R)) (error_lines : List String)
      (unread : List (CodexIOItem R))

/-- The `loop { tokio::select! { .. } }` of `run_codex_streaming`
(codex.rs lines 131-163): each stdout event goes through
`handle_codex_event` whose error propagates immediately (`?`); a later
`turn.completed` result overwrites `final_response`; stdout EOF breaks
(stderr EOF does not); stderr lines accumulate. -/
def codexLoop : List (CodexIOItem R) → Option (CodexResponse R) → List String →
    Option String → CodexLoopExit R
  | [], final_response, error_lines, _ =>
    CodexLoopExit.finished final_response error_lines []
  | item :: rest, final_response, error_lines, thread_id =>
    match item with
    | CodexIOItem.outLine (CodexLine.event e) =>
      match handle_codex_event e thread_id with
      | Except.error err => CodexLoopExit.aborted err rest
      | Except.ok (some resp, tid) => codexLoop rest (some resp) error_lines tid
      | Except.ok (none, tid) => codexLoop rest final_response error_lines tid
    | CodexIOItem.outLine CodexLine.blank =>
      codexLoop rest final_response error_lines thread_id
    | CodexIOItem.outLine CodexLine.garbage =>
      codexLoop rest final_response error_lines thread_id
    | CodexIOItem.outEof => CodexLoopExit.finished final_response error_lines rest
    | CodexIOItem.outErr msg =>
      CodexLoopExit.aborted (AdapterError.stdoutReadError msg) rest
    | CodexIOItem.errLine s =>
      codexLoop rest final_response (error_lines ++ [s]) thread_id
    | CodexIOItem.errEof => codexLoop rest final_response error_lines thread_id
    | CodexIOItem.errErr msg =>
      CodexLoopExit.aborted (AdapterError.stderrReadError msg) rest

/-- Result of a modelled `run_codex_streaming` invocation (same
`reaped`/`unread` bookkeeping as `ClaudeRunResult`). -/
structure CodexRunResult (R : Type) where
  outcome : Except AdapterError (CodexResponse R)
  reaped : Bool
  unread : List (CodexIOItem R)

/-- `run_codex_streaming` (codex.rs lines 75-188): run the stream loop;
only when it breaks normally is the child reaped (`child.wait()`, line
165); a non-zero exit whose stderr mentions `auth` or `unauthorized`
becomes `AuthenticationFailed`; a clean exit without an observed result
fails with "No result received from codex". -/
def run_codex_streaming (trace : List (CodexIOItem R)) (exitCode : Nat) :
    CodexRunResult R :=
  match codexLoop trace none [] none with
  | CodexLoopExit.aborted e unread =>
    { outcome := Except.error e, reaped := false, unread := unread }
  | CodexLoopExit.finished final_response error_lines unread =>
    if exitCode ≠ 0 then
      let stderr_output := String.intercalate "\n" error_lines
      if strContains stderr_output "auth" || strContains stderr_output "unauthorized" then
        { outcome := Except.error AdapterError.authenticationFailed
          reaped := true, unread := unread }
      else
        { outcome := Except.error (AdapterError.processFailed exitCode stderr_output)
          reaped := true, unread := unread }
    else
      match final_response with
      | some r => { outcome := Except.ok r, reaped := true, unread := unread }
      | none =>
        { outcome := Except.error (AdapterError.noResult "No result received from codex")
          reaped := true, unread := unread }

/-- The comment-conversion closure inside `parse_reviewer_output`
(codex.rs lines 478-496), identical to the Claude one. -/
def convert_comment (c : RawReviewComment) : ReviewComment :=
  { path := c.path
    line := c.line
    body := c.body
    severity :=
      match c.severity with
      | "critical" => CommentSeverity.Critical
      | "major" => CommentSeverity.Major
      | "minor" => CommentSeverity.Minor
      | "suggestion" => CommentSeverity.Suggestion
      | _ => CommentSeverity.Minor }

/-- `parse_reviewer_output` (codex.rs lines 462-504). -/
def parse_reviewer_output (response : CodexResponse RawReviewerOutput) :
    Except AdapterError ReviewerOutput :=
  match response.result with
  | none => Except.error (AdapterError.noResult "No result in codex response")
  | some raw =>
    match raw.action with
    | "approve" =>
      Except.ok { action := ReviewAction.Approve, summary := raw.summary
                  comments := raw.comments.map convert_comment
                  blocking_issues := raw.blocking_issues }
    | "request_changes" =>
      Except.ok { action := ReviewAction.RequestChanges, summary := raw.summary
                  comments := raw.comments.map convert_comment
                  blocking_issues := raw.blocking_issues }
    | "comment" =>
      Except.ok { action := ReviewAction.Comment, summary := raw.summary
                  comments := raw.comments.map convert_comment
                  blocking_issues := raw.blocking_issues }
    | other => Except.error (AdapterError.unknownAction other)

/-- `parse_reviewee_output` (codex.rs lines 506-536).  As in the Claude
adapter, `question`, `permission_request` and `error_details` are
copied through unchanged, whatever the status. -/
def parse_reviewee_output (response : CodexResponse RawRevieweeOutput) :
    Except AdapterError RevieweeOutput :=
  match response.result with
  | none => Except.error (AdapterError.noResult "No result in codex response")
  | some raw =>
    match (match raw.status with
           | "completed" => Except.ok RevieweeStatus.Completed
           | "needs_clarification" => Except.ok RevieweeStatus.NeedsClarification
           | "needs_permission" => Except.ok RevieweeStatus.NeedsPermission
           | "error" => Except.ok RevieweeStatus.Error
           | other => Except.error (AdapterError.unknownStatus other)) with
    | Except.error e => Except.error e
    | Except.ok status =>
      Except.ok { status := status, summary := raw.summary
                  files_modified := raw.files_modified
                  question := raw.question
                  permission_request :=
                    raw.permission_request.map
                      (fun p => { action := p.action, reason := p.reason })
                  error_details := raw.error_details }

/-- `struct CodexAdapter` (codex.rs lines 40-44).  The `event_sender`
field is a channel handle whose state is modelled by `EventChannel`
below; only its presence matters for the session-slot behaviour, so it
is kept as a `Bool`. -/
structure CodexAdapter where
  reviewer_session_id : Option String
  reviewee_session_id : Option String
  event_sender_attached : Bool
deriving DecidableEq, Repr

/-- `CodexAdapter::run_reviewer` (codex.rs lines 296-315): stream, store
the session id, then parse.  The last component counts processes
spawned by the call. -/
def CodexAdapter.run_reviewer (self : CodexAdapter)
    (trace : List (CodexIOItem RawReviewerOutput)) (exitCode : Nat) :
    Except AdapterError ReviewerOutput × CodexAdapter × Nat :=
  match run_codex_streaming trace exitCode with
  | { outcome := Except.error e, .. } => (Except.error e, self, 1)
  | { outcome := Except.ok resp, .. } =>
    (parse_reviewer_output resp,
     { self with reviewer_session_id := some resp.session_id }, 1)

/-- `CodexAdapter::run_reviewee` (codex.rs lines 317-333). -/
def CodexAdapter.run_reviewee (self : CodexAdapter)
    (trace : List (CodexIOItem RawRevieweeOutput)) (exitCode : Nat) :
    Except AdapterError RevieweeOutput × CodexAdapter × Nat :=
  match run_codex_streaming trace exitCode with
  | { outcome := Except.error e, .. } => (Except.error e, self, 1)
  | { outcome := Except.ok resp, .. } =>
    (parse_reviewee_output resp,
     { self with reviewee_session_id := some resp.session_id }, 1)

/-- `CodexAdapter::continue_reviewer` (codex.rs lines 335-347): an empty
reviewer session slot fails before any process is spawned and leaves
the adapter untouched; a continuation never updates the session slots. -/
def CodexAdapter.continue_reviewer (self : CodexAdapter)
    (trace : List (CodexIOItem RawReviewerOutput)) (exitCode : Nat) :
    Except AdapterError ReviewerOutput × CodexAdapter × Nat :=
  match self.reviewer_session_id with
  | none =>
    (Except.error (AdapterError.noSession "No reviewer session to continue"),
     self, 0)
  | some _ =>
    match run_codex_streaming trace exitCode with
    | { outcome := Except.error e, .. } => (Except.error e, self, 1)
    | { outcome := Except.ok resp, .. } => (parse_reviewer_output resp, self, 1)

/-- `CodexAdapter::continue_reviewee` (codex.rs lines 349-361). -/
def CodexAdapter.continue_reviewee (self : CodexAdapter)
    (trace : List (CodexIOItem RawRevieweeOutput)) (exitCode : Nat) :
    Except AdapterError RevieweeOutput × CodexAdapter × Nat :=
  match self.reviewee_session_id with
  | none =>
    (Except.error (AdapterError.noSession "No reviewee session to continue"),
     self, 0)
  | some _ =>
    match run_codex_streaming trace exitCode with
    | { outcome := Except.error e, .. } => (Except.error e, self, 1)
    | { outcome := Except.ok resp, .. } => (parse_reviewee_output resp, self, 1)

end Codex

/-! ## Event channel (`tokio::sync::mpsc`, used by
`CodexAdapter::send_event`, codex.rs lines 68-72) -/

/-- State of the bounded mpsc channel at the moment of one send:
its capacity (tokio requires it positive), how many events are queued,
and whether the receiver side is closed. -/
structure EventChannel where
  capacity : Nat
  queued : Nat
  closed : Bool
deriving DecidableEq, Repr

/-- Immediate disposition of one `sender.send(event).await`. -/
inductive SendDisposition where
  /-- no sink attached: `send_event` is a no-op (codex.rs line 69) -/
  | notAttached
  /-- the event was enqueued and the call continues -/
  | delivered
  /-- the channel is closed: `send` returns `Err(SendError)`, which
  `let _ =` discards — the call continues unaffected -/
  | discarded
  /-- the channel is open but at capacity: `Sender::send` suspends the
  caller until space frees or the receiver closes -/
  | blocked
deriving DecidableEq, Repr

/-- `tokio::sync::mpsc::Sender::send` semantics for one send attempt. -/
def channel_send (ch : EventChannel) : SendDisposition :=
  if ch.closed then SendDisposition.discarded
  else if ch.queued < ch.capacity then SendDisposition.delivered
  else SendDisposition.blocked

/-- `CodexAdapter::send_event` (codex.rs lines 68-72):
`if let Some(ref sender) = self.event_sender { let _ = sender.send(event).await; }`. -/
def send_event (sender : Option EventChannel) : SendDisposition :=
  match sender with
  | none => SendDisposition.notAttached
  | some ch => channel_send ch

/-! ## Rally orchestrator state machine

`src/ai/orchestrator.rs` is not part of the sources here; only its
consumers are (`src/ui/ai_rally.rs` matches on exactly these seven
`RallyState` variants).  The transition function is therefore modelled
from the specification's transition table (§4.4). -/

/-- The seven rally phases, as matched exhaustively in
`src/ui/ai_rally.rs` (render_header). -/
inductive RallyState where
  | Initializing
  | ReviewerReviewing
  | RevieweeFix
  | WaitingForClarification
  | WaitingForPermission
  | Completed
  | Error
deriving DecidableEq, Repr

/-- The triggers of the specification's transition table: rally start,
a reviewer call returning an action or failing, a reviewee call
returning a status or failing, and the three human decisions. -/
inductive RallyTrigger where
  | rallyStart
  | reviewDone (action : ReviewAction)
  | reviewFailed
  | fixDone (status : RevieweeStatus)
  | fixFailed
  | answerSupplied
  | permissionGranted
  | permissionDenied
deriving DecidableEq, Repr

/-- Orchestrator control state: current phase, the iteration counter
("counts reviewer turns"), and the configured maximum. -/
structure RallyMachine where
  state : RallyState
  iterations : Nat
  maxIterations : Nat
deriving DecidableEq, Repr

/-- Modelled from the spec: the Rally Orchestrator transition table of
§4.4 (`src/ai/orchestrator.rs` is absent from the sources).  Row by row:
rally start enters ReviewerReviewing (first reviewer turn, counter 1);
Approve completes; RequestChanges/Comment go to RevieweeFix only while
`iterations < max`, otherwise Error; a reviewer call failure is Error;
a completed fix re-enters ReviewerReviewing with the counter bumped;
NeedsClarification/NeedsPermission wait for the human, whose answer or
grant resumes RevieweeFix and whose denial is Error; a reviewee error
or call failure is Error.  Pairs outside the table leave the machine
unchanged; Completed and Error are terminal. -/
def rallyStep (m : RallyMachine) (t : RallyTrigger) : RallyMachine :=
  match m.state, t with
  | RallyState.Initializing, RallyTrigger.rallyStart =>
    { m with state := RallyState.ReviewerReviewing, iterations := 1 }
  | RallyState.ReviewerReviewing, RallyTrigger.reviewDone ReviewAction.Approve =>
    { m with state := RallyState.Completed }
  | RallyState.ReviewerReviewing, RallyTrigger.reviewDone _ =>
    if m.iterations < m.maxIterations then { m with state := RallyState.RevieweeFix }
    else { m with state := RallyState.Error }
  | RallyState.ReviewerReviewing, RallyTrigger.reviewFailed =>
    { m with state := RallyState.Error }
  | RallyState.RevieweeFix, RallyTrigger.fixDone RevieweeStatus.Completed =>
    { m with state := RallyState.ReviewerReviewing, iterations := m.iterations + 1 }
  | RallyState.RevieweeFix, RallyTrigger.fixDone RevieweeStatus.NeedsClarification =>
    { m with state := RallyState.WaitingForClarification }
  | RallyState.RevieweeFix, RallyTrigger.fixDone RevieweeStatus.NeedsPermission =>
    { m with state := RallyState.WaitingForPermission }
  | RallyState.RevieweeFix, RallyTrigger.fixDone RevieweeStatus.Error =>
    { m with state := RallyState.Error }
  | RallyState.RevieweeFix, RallyTrigger.fixFailed =>
    { m with state := RallyState.Error }
  | RallyState.WaitingForClarification, RallyTrigger.answerSupplied =>
    { m with state := RallyState.RevieweeFix }
  | RallyState.WaitingForPermission, RallyTrigger.permissionGranted =>
    { m with state := RallyState.RevieweeFix }
  | RallyState.WaitingForPermission, RallyTrigger.permissionDenied =>
    { m with state := RallyState.Error }
  | _, _ => m

/-- Run the machine over a trigger sequence. -/
def runRally (m : RallyMachine) : List RallyTrigger → RallyMachine
  | [] => m
  | t :: ts => runRally (rallyStep m t) ts

/-- Number of reviewer turns along a trigger sequence: a turn starts
whenever a step enters ReviewerReviewing from another phase. -/
def reviewerTurns (m : RallyMachine) : List RallyTrigger → Nat
  | [] => 0
  | t :: ts =>
    let m' := rallyStep m t
    (if m.state ≠ RallyState.ReviewerReviewing ∧
        m'.state = RallyState.ReviewerReviewing then 1 else 0) +
      reviewerTurns m' ts

/-- The fresh machine a rally starts from. -/
def initRally (maxIterations : Nat) : RallyMachine :=
  { state := RallyState.Initializing, iterations := 0, maxIterations := maxIterations }

/-- Invariant of reachable rally machines: the configured maximum is
positive and never exceeded; the fix/waiting phases are only entered
while strictly below the maximum; the counter is zero before start. -/
def RallyInv (m : RallyMachine) : Prop :=
  1 ≤ m.maxIterations ∧
    m.iterations ≤ m.maxIterations ∧
    ((m.state = RallyState.RevieweeFix ∨ m.state = RallyState.WaitingForClarification ∨
        m.state = RallyState.WaitingForPermission) → m.iterations < m.maxIterations) ∧
    (m.state = RallyState.Initializing → m.iterations = 0)

/-! ## Stream-trace predicates and summaries (proof infrastructure) -/

namespace Codex

/-- Items the streaming loop steps over without breaking, erroring or
aborting: everything except stdout EOF, a read error on either stream,
and a decoded `turn.failed` event. -/
def nonAborting : CodexIOItem R → Bool
  | CodexIOItem.outEof => false
  | CodexIOItem.outErr _ => false
  | CodexIOItem.errErr _ => false
  | CodexIOItem.outLine (CodexLine.event (CodexEvent.TurnFailed _)) => false
  | _ => true

/-- Items that produce a final response: a decoded `turn.completed`
event carrying a result payload. -/
def yieldsResult : CodexIOItem R → Bool
  | CodexIOItem.outLine (CodexLine.event (CodexEvent.TurnCompleted _ (some _))) => true
  | _ => false

/-- Items that capture a thread id: a decoded `thread.started` event. -/
def startsThread : CodexIOItem R → Bool
  | CodexIOItem.outLine (CodexLine.event (CodexEvent.ThreadStarted _)) => true
  | _ => false

/-- The stderr lines carried by a trace segment, in order. -/
def codexStderr : List (CodexIOItem R) → List String
  | [] => []
  | CodexIOItem.errLine s :: is => s :: codexStderr is
  | _ :: is => codexStderr is

/-- The `(final_response, thread_id)` accumulator state after the loop
steps over a segment of non-aborting items. -/
def codexScan : List (CodexIOItem R) → Option (CodexResponse R) → Option String →
    Option (CodexResponse R) × Option String
  | [], fr, tid => (fr, tid)
  | i :: is, fr, tid =>
    match i with
    | CodexIOItem.outLine (CodexLine.event (CodexEvent.ThreadStarted t)) =>
      codexScan is fr (some t)
    | CodexIOItem.outLine (CodexLine.event (CodexEvent.TurnCompleted _ (some v))) =>
      codexScan is (some { session_id := tid.getD "", result := some v }) tid
    | _ => codexScan is fr tid

end Codex

namespace Claude

/-- Items `run_claude`'s loop steps over without breaking or erroring:
everything except stdout EOF and a read error on either stream. -/
def noStop : ClaudeIOItem → Bool
  | ClaudeIOItem.outEof => false
  | ClaudeIOItem.outErr _ => false
  | ClaudeIOItem.errErr _ => false
  | _ => true

/-- The stdout lines carried by a trace segment, in order. -/
def claudeStdout : List ClaudeIOItem → List String
  | [] => []
  | ClaudeIOItem.outLine s :: is => s :: claudeStdout is
  | _ :: is => claudeStdout is

/-- The stderr lines carried by a trace segment, in order. -/
def claudeStderr : List ClaudeIOItem → List String
  | [] => []
  | ClaudeIOItem.errLine s :: is => s :: claudeStderr is
  | _ :: is => claudeStderr is

end Claude

/-! ## Concrete payloads used by counterexamples and witnesses -/

/-- A reviewee payload whose `status` says `completed` while `question`
is set — the combination the spec says the parse rejects. -/
def mismatchedReviewee : RawRevieweeOutput :=
  { status := "completed", summary := "done", files_modified := []
    question := some "Which database should I target?"
    permission_request := none, error_details := none }

/-- The `RevieweeOutput` both adapters actually return for
`mismatchedReviewee`. -/
def mismatchedRevieweeParsed : RevieweeOutput :=
  { status := RevieweeStatus.Completed, summary := "done", files_modified := []
    question := some "Which database should I target?"
    permission_request := none, error_details := none }

/-! ## Loop lemmas -/

/-- Stepping the codex stream loop over a segment of non-aborting items
leaves a loop on the remaining trace, with the accumulators advanced by
`codexScan`/`codexStderr`. -/
theorem Codex.codexLoop_append {R : Type} :
    ∀ (pre : List (CodexIOItem R)), (∀ i ∈ pre, nonAborting i = true) →
      ∀ (rest : List (CodexIOItem R)) (fr : Option (CodexResponse R))
        (el : List String) (tid : Option String),
        codexLoop (pre ++ rest) fr el tid
          = codexLoop rest (codexScan pre fr tid).1 (el ++ codexStderr pre)
              (codexScan pre fr tid).2 := by
  intro pre
  induction pre with
  | nil => intro _ rest fr el tid; simp [codexScan, codexStderr]
  | cons i is ih =>
    intro hpre rest fr el tid
    have hi : nonAborting i = true := hpre i (by simp)
    have his : ∀ j ∈ is, nonAborting j = true := fun j hj => hpre j (by simp [hj])
    cases i with
    | outLine l =>
      cases l with
      | blank =>
        simpa [codexLoop, codexScan, codexStderr] using ih his rest fr el tid
      | garbage =>
        simpa [codexLoop, codexScan, codexStderr] using ih his rest fr el tid
      | event ev =>
        cases ev with
        | ThreadStarted t =>
          simpa [codexLoop, handle_codex_event, codexScan, codexStderr]
            using ih his rest fr el (some t)
        | TurnStarted t =>
          simpa [codexLoop, handle_codex_event, codexScan, codexStderr]
            using ih his rest fr el tid
        | TurnCompleted t res =>
          cases res with
          | none =>
            simpa [codexLoop, handle_codex_event, codexScan, codexStderr]
              using ih his rest fr el tid
          | some v =>
            simpa [codexLoop, handle_codex_event, codexScan, codexStderr]
              using ih his rest (some { session_id := tid.getD "", result := some v }) el tid
        | TurnFailed e => simp [nonAborting] at hi
        | ItemStarted it =>
          simpa [codexLoop, handle_codex_event, codexScan, codexStderr]
            using ih his rest fr el tid
        | ItemUpdated it =>
          simpa [codexLoop, handle_codex_event, codexScan, codexStderr]
            using ih his rest fr el tid
        | ItemCompleted it =>
          simpa [codexLoop, handle_codex_event, codexScan, codexStderr]
            using ih his rest fr el tid
        | Unknown =>
          simpa [codexLoop, handle_codex_event, codexScan, codexStderr]
            using ih his rest fr el tid
    | outEof => simp [nonAborting] at hi
    | outErr m => simp [nonAborting] at hi
    | errLine s =>
      simpa [codexLoop, codexScan, codexStderr] using ih his rest fr (el ++ [s]) tid
    | errEof => simpa [codexLoop, codexScan, codexStderr] using ih his rest fr el tid
    | errErr m => simp [nonAborting] at hi

/-- A segment without `turn.completed`-with-result items leaves the
`final_response` accumulator untouched. -/
theorem Codex.codexScan_no_result {R : Type} :
    ∀ (pre : List (CodexIOItem R)), (∀ i ∈ pre, yieldsResult i = false) →
      ∀ (fr : Option (CodexResponse R)) (tid : Option String),
        (codexScan pre fr tid).1 = fr := by
  intro pre
  induction pre with
  | nil => intro _ fr tid; simp [codexScan]
  | cons i is ih =>
    intro hpre fr tid
    have hi : yieldsResult i = false := hpre i (by simp)
    have his : ∀ j ∈ is, yieldsResult j = false := fun j hj => hpre j (by simp [hj])
    cases i with
    | outLine l =>
      cases l with
      | blank => simpa [codexScan] using ih his fr tid
      | garbage => simpa [codexScan] using ih his fr tid
      | event ev =>
        cases ev with
        | ThreadStarted t => simpa [codexScan] using ih his fr (some t)
        | TurnStarted t => simpa [codexScan] using ih his fr tid
        | TurnCompleted t res =>
          cases res with
          | none => simpa [codexScan] using ih his fr tid
          | some v => simp [yieldsResult] at hi
        | TurnFailed e => simpa [codexScan] using ih his fr tid
        | ItemStarted it => simpa [codexScan] using ih his fr tid
        | ItemUpdated it => simpa [codexScan] using ih his fr tid
        | ItemCompleted it => simpa [codexScan] using ih his fr tid
        | Unknown => simpa [codexScan] using ih his fr tid
    | outEof => simpa [codexScan] using ih his fr tid
    | outErr m => simpa [codexScan] using ih his fr tid
    | errLine s => simpa [codexScan] using ih his fr tid
    | errEof => simpa [codexScan] using ih his fr tid
    | errErr m => simpa [codexScan] using ih his fr tid

/-- A segment without `thread.started` items leaves the `thread_id`
accumulator untouched. -/
theorem Codex.codexScan_no_thread {R : Type} :
    ∀ (pre : List (CodexIOItem R)), (∀ i ∈ pre, startsThread i = false) →
      ∀ (fr : Option (CodexResponse R)) (tid : Option String),
        (codexScan pre fr tid).2 = tid := by
  intro pre
  induction pre with
  | nil => intro _ fr tid; simp [codexScan]
  | cons i is ih =>
    intro hpre fr tid
    have hi : startsThread i = false := hpre i (by simp)
    have his : ∀ j ∈ is, startsThread j = false := fun j hj => hpre j (by simp [hj])
    cases i with
    | outLine l =>
      cases l with
      | blank => simpa [codexScan] using ih his fr tid
      | garbage => simpa [codexScan] using ih his fr tid
      | event ev =>
        cases ev with
        | ThreadStarted t => simp [startsThread] at hi
        | TurnStarted t => simpa [codexScan] using ih his fr tid
        | TurnCompleted t res =>
          cases res with
          | none => simpa [codexScan] using ih his fr tid
          | some v =>
            simpa [codexScan]
              using ih his (some { session_id := tid.getD "", result := some v }) tid
        | TurnFailed e => simpa [codexScan] using ih his fr tid
        | ItemStarted it => simpa [codexScan] using ih his fr tid
        | ItemUpdated it => simpa [codexScan] using ih his fr tid
        | ItemCompleted it => simpa [codexScan] using ih his fr tid
        | Unknown => simpa [codexScan] using ih his fr tid
    | outEof => simpa [codexScan] using ih his fr tid
    | outErr m => simpa [codexScan] using ih his fr tid
    | errLine s => simpa [codexScan] using ih his fr tid
    | errEof => simpa [codexScan] using ih his fr tid
    | errErr m => simpa [codexScan] using ih his fr tid

/-- Stepping the claude read loop over a segment of non-stopping items
appends the segment's stdout and stderr lines to the accumulators. -/
theorem Claude.claudeLoop_append :
    ∀ (pre : List ClaudeIOItem), (∀ i ∈ pre, noStop i = true) →
      ∀ (rest : List ClaudeIOItem) (out err : List String),
        claudeLoop (pre ++ rest) out err
          = claudeLoop rest (out ++ claudeStdout pre) (err ++ claudeStderr pre) := by
  intro pre
  induction pre with
  | nil => intro _ rest out err; simp [claudeStdout, claudeStderr]
  | cons i is ih =>
    intro hpre rest out err
    have hi : noStop i = true := hpre i (by simp)
    have his : ∀ j ∈ is, noStop j = true := fun j hj => hpre j (by simp [hj])
    cases i with
    | outLine s =>
      simpa [claudeLoop, claudeStdout, claudeStderr] using ih his rest (out ++ [s]) err
    | outEof => simp [noStop] at hi
    | outErr m => simp [noStop] at hi
    | errLine s =>
      simpa [claudeLoop, claudeStdout, claudeStderr] using ih his rest out (err ++ [s])
    | errEof => simpa [claudeLoop, claudeStdout, claudeStderr] using ih his rest out err
    | errErr m => simp [noStop] at hi

/-! ## Rally machine lemmas -/

/-- A step never changes the configured maximum. -/
theorem rallyStep_max (m : RallyMachine) (t : RallyTrigger) :
    (rallyStep m t).maxIterations = m.maxIterations := by
  unfold rallyStep
  split <;> (try split) <;> rfl

/-- `RallyInv` is preserved by every step. -/
theorem rallyInv_step (m : RallyMachine) (t : RallyTrigger) (h : RallyInv m) :
    RallyInv (rallyStep m t) := by
  obtain ⟨h1, h2, h3, h4⟩ := h
  unfold rallyStep
  split <;> (try split) <;> simp_all [RallyInv] <;> omega

/-- The iteration counter never decreases along a step. -/
theorem rallyStep_iterations_le (m : RallyMachine) (t : RallyTrigger) (h : RallyInv m) :
    m.iterations ≤ (rallyStep m t).iterations := by
  obtain ⟨h1, h2, h3, h4⟩ := h
  unfold rallyStep
  split <;> (try split) <;> simp_all

/-- Every step that enters ReviewerReviewing from another phase bumps
the iteration counter. -/
theorem rallyStep_enter_incr (m : RallyMachine) (t : RallyTrigger) (h : RallyInv m)
    (hne : m.state ≠ RallyState.ReviewerReviewing)
    (hen : (rallyStep m t).state = RallyState.ReviewerReviewing) :
    m.iterations + 1 ≤ (rallyStep m t).iterations := by
  obtain ⟨h1, h2, h3, h4⟩ := h
  unfold rallyStep at hen ⊢
  split at hen <;> (try split at hen) <;> simp_all

/-- Reviewer-turn bound: along any trigger sequence, the turns taken
plus the current counter stay within the configured maximum. -/
theorem reviewerTurns_le :
    ∀ (ts : List RallyTrigger) (m : RallyMachine), RallyInv m →
      m.iterations + reviewerTurns m ts ≤ m.maxIterations := by
  intro ts
  induction ts with
  | nil =>
    intro m h
    simpa [reviewerTurns] using h.2.1
  | cons t ts ih =>
    intro m h
    have hstep := rallyInv_step m t h
    have hmax := rallyStep_max m t
    have hih := ih (rallyStep m t) hstep
    rw [hmax] at hih
    unfold reviewerTurns
    dsimp only
    by_cases hc : m.state ≠ RallyState.ReviewerReviewing ∧
        (rallyStep m t).state = RallyState.ReviewerReviewing
    · have hincr := rallyStep_enter_incr m t h hc.1 hc.2
      rw [if_pos hc]
      omega
    · have hmono := rallyStep_iterations_le m t h
      rw [if_neg hc]
      omega

/-! ## Claims -/

/-- Whenever the codex stream loop ends in `finished` (stdout EOF), the
subsequent `child.wait()` runs, whatever the exit code. -/
theorem Codex.run_codex_reaped_of_finished {R : Type} (trace : List (CodexIOItem R))
    (exitCode : Nat) (fr : Option (CodexResponse R)) (el : List String)
    (unread : List (CodexIOItem R))
    (h : codexLoop trace none [] none = CodexLoopExit.finished fr el unread) :
    (run_codex_streaming trace exitCode).reaped = true := by
  unfold run_codex_streaming
  rw [h]
  dsimp only
  split
  · split <;> rfl
  · split <;> rfl

/-- Whenever the claude read loop ends in `finished` (stdout EOF), the
subsequent `child.wait()` runs, whatever the exit code. -/
theorem Claude.run_claude_reaped_of_finished {R : Type}
    (decode : String → Except String (ClaudeResponse R))
    (trace : List ClaudeIOItem) (exitCode : Nat) (out err : List String)
    (unread : List ClaudeIOItem)
    (h : claudeLoop trace [] [] = ClaudeLoopExit.finished out err unread) :
    (run_claude decode trace exitCode).reaped = true := by
  unfold run_claude
  rw [h]
  dsimp only
  split
  · rfl
  · split <;> rfl

/-- **C1, counterexample.**  The claim says a payload combining a set
`question` with a non-matching status is rejected by the parse.  It is
not: both adapters return the payload `{status: "completed", question:
"Which database should I target?"}` successfully, status `Completed`
and question still set. -/
theorem c1_counterexample :
    Claude.parse_reviewee_output { session_id := "s", result := some mismatchedReviewee }
        = Except.ok mismatchedRevieweeParsed ∧
      Codex.parse_reviewee_output { session_id := "s", result := some mismatchedReviewee }
        = Except.ok mismatchedRevieweeParsed ∧
      mismatchedRevieweeParsed.question.isSome = true ∧
      mismatchedRevieweeParsed.status ≠ RevieweeStatus.NeedsClarification := by
  refine ⟨rfl, rfl, rfl, ?_⟩
  decide

/-- **C1, amended.**  Neither adapter's `parse_reviewee_output` enforces
any relation between `status` and `question`/`permission_request`: for
every accepted payload the parse copies both fields through exactly as
given, whatever the status, so a mismatched combination is returned,
not rejected. -/
theorem c1_amended_passthrough :
    (∀ (sid : String) (raw : RawRevieweeOutput) (out : RevieweeOutput),
        Claude.parse_reviewee_output { session_id := sid, result := some raw }
            = Except.ok out →
          out.question = raw.question ∧
            out.permission_request
              = raw.permission_request.map
                  (fun p => { action := p.action, reason := p.reason })) ∧
      (∀ (sid : String) (raw : RawRevieweeOutput) (out : RevieweeOutput),
        Codex.parse_reviewee_output { session_id := sid, result := some raw }
            = Except.ok out →
          out.question = raw.question ∧
            out.permission_request
              = raw.permission_request.map
                  (fun p => { action := p.action, reason := p.reason })) := by
  constructor
  · intro sid raw out h
    simp only [Claude.parse_reviewee_output] at h
    split at h
    · exact absurd h (by simp)
    · rename_i status heq
      simp only [Except.ok.injEq] at h
      subst h
      exact ⟨rfl, rfl⟩
  · intro sid raw out h
    simp only [Codex.parse_reviewee_output] at h
    split at h
    · exact absurd h (by simp)
    · rename_i status heq
      simp only [Except.ok.injEq] at h
      subst h
      exact ⟨rfl, rfl⟩

/-- **C1, witness** for the amended theorem at the concrete mismatched
payload. -/
theorem c1_amended_passthrough_witness :
    mismatchedRevieweeParsed.question = mismatchedReviewee.question ∧
      mismatchedRevieweeParsed.permission_request
        = mismatchedReviewee.permission_request.map
            (fun p => { action := p.action, reason := p.reason }) :=
  c1_amended_passthrough.1 "s" mismatchedReviewee mismatchedRevieweeParsed rfl

/-- **C2.**  `action` and `status` are closed sets: any string outside
them fails the parse, in both adapters.  `severity` is forward
compatible: any string outside its set converts to `Minor`, and a
payload whose `action` is valid parses successfully whatever severity
strings its comments carry. -/
theorem c2_closed_sets_severity_fallback :
    (∀ (sid : String) (raw : RawReviewerOutput),
        raw.action ≠ "approve" → raw.action ≠ "request_changes" →
          raw.action ≠ "comment" →
        Claude.parse_reviewer_output { session_id := sid, result := some raw }
          = Except.error (AdapterError.unknownAction raw.action)) ∧
      (∀ (sid : String) (raw : RawReviewerOutput),
        raw.action ≠ "approve" → raw.action ≠ "request_changes" →
          raw.action ≠ "comment" →
        Codex.parse_reviewer_output { session_id := sid, result := some raw }
          = Except.error (AdapterError.unknownAction raw.action)) ∧
      (∀ (sid : String) (raw : RawRevieweeOutput),
        raw.status ≠ "completed" → raw.status ≠ "needs_clarification" →
          raw.status ≠ "needs_permission" → raw.status ≠ "error" →
        Claude.parse_reviewee_output { session_id := sid, result := some raw }
          = Except.error (AdapterError.unknownStatus raw.status)) ∧
      (∀ (sid : String) (raw : RawRevieweeOutput),
        raw.status ≠ "completed" → raw.status ≠ "needs_clarification" →
          raw.status ≠ "needs_permission" → raw.status ≠ "error" →
        Codex.parse_reviewee_output { session_id := sid, result := some raw }
          = Except.error (AdapterError.unknownStatus raw.status)) ∧
      (∀ (s p b : String) (l : Nat),
        s ≠ "critical" → s ≠ "major" → s ≠ "minor" → s ≠ "suggestion" →
        Claude.convert_comment { path := p, line := l, body := b, severity := s }
            = { path := p, line := l, body := b, severity := CommentSeverity.Minor } ∧
          Codex.convert_comment { path := p, line := l, body := b, severity := s }
            = { path := p, line := l, body := b, severity := CommentSeverity.Minor }) ∧
      (∀ (sid : String) (raw : RawReviewerOutput),
        raw.action = "comment" →
        Claude.parse_reviewer_output { session_id := sid, result := some raw }
            = Except.ok { action := ReviewAction.Comment, summary := raw.summary
                          comments := raw.comments.map Claude.convert_comment
                          blocking_issues := raw.blocking_issues } ∧
          Codex.parse_reviewer_output { session_id := sid, result := some raw }
            = Except.ok { action := ReviewAction.Comment, summary := raw.summary
                          comments := raw.comments.map Codex.convert_comment
                          blocking_issues := raw.blocking_issues }) := by
  refine ⟨?_, ?_, ?_, ?_, ?_, ?_⟩
  · intro sid raw h1 h2 h3
    unfold Claude.parse_reviewer_output
    split <;> simp_all
  · intro sid raw h1 h2 h3
    unfold Codex.parse_reviewer_output
    split <;> simp_all
  · intro sid raw h1 h2 h3 h4
    simp only [Claude.parse_reviewee_output]
  · intro sid raw h1 h2 h3 h4
    simp only [Codex.parse_reviewee_output]
  · intro s p b l h1 h2 h3 h4
    constructor
    · unfold Claude.convert_comment
      split <;> simp_all
    · unfold Codex.convert_comment
      split <;> simp_all
  · intro sid raw h
    constructor
    · unfold Claude.parse_reviewer_output
      split <;> simp_all
    · unfold Codex.parse_reviewer_output
      split <;> simp_all

/-- **C2, witness** at concrete unknown strings `"blocker"`, `"stalled"`,
`"info"` and a valid `comment` payload. -/
theorem c2_closed_sets_severity_fallback_witness :
    Claude.parse_reviewer_output
        { session_id := "s"
          result := some { action := "blocker", summary := "x", comments := []
                           blocking_issues := [] } }
        = Except.error (AdapterError.unknownAction "blocker") ∧
      Codex.parse_reviewee_output
          { session_id := "s"
            result := some { status := "stalled", summary := "x", files_modified := []
                             question := none, permission_request := none
                             error_details := none } }
        = Except.error (AdapterError.unknownStatus "stalled") ∧
      Claude.convert_comment { path := "a.rs", line := 3, body := "b", severity := "info" }
        = { path := "a.rs", line := 3, body := "b", severity := CommentSeverity.Minor } ∧
      Codex.parse_reviewer_output
          { session_id := "s"
            result := some { action := "comment", summary := "x"
                             comments := [{ path := "a.rs", line := 3, body := "b"
                                            severity := "info" }]
                             blocking_issues := [] } }
        = Except.ok { action := ReviewAction.Comment, summary := "x"
                      comments := [{ path := "a.rs", line := 3, body := "b"
                                     severity := CommentSeverity.Minor }]
                      blocking_issues := [] } := by
  refine ⟨?_, ?_, ?_, ?_⟩
  · exact c2_closed_sets_severity_fallback.1 "s" _ (by decide) (by decide) (by decide)
  · exact c2_closed_sets_severity_fallback.2.2.2.1 "s" _ (by decide) (by decide)
      (by decide) (by decide)
  · exact (c2_closed_sets_severity_fallback.2.2.2.2.1 "info" "a.rs" "b" 3
      (by decide) (by decide) (by decide) (by decide)).1
  · exact (c2_closed_sets_severity_fallback.2.2.2.2.2 "s" _ rfl).2

/-- **C3.**  A decoded `turn.failed{error}` event makes the codex call
fail at once with `TurnFailed` carrying exactly the backend-reported
error string: whatever non-aborting items preceded it, the items after
it are never read (`unread = post`) and the exit code — zero included —
plays no part (the result does not depend on `exitCode` at all). -/
theorem c3_turn_failed_aborts {R : Type}
    (pre post : List (Codex.CodexIOItem R)) (e : String) (exitCode : Nat)
    (hpre : ∀ i ∈ pre, Codex.nonAborting i = true) :
    Codex.run_codex_streaming
        (pre ++ Codex.CodexIOItem.outLine
            (Codex.CodexLine.event (Codex.CodexEvent.TurnFailed e)) :: post)
        exitCode
      = { outcome := Except.error (AdapterError.turnFailed e)
          reaped := false, unread := post } := by
  unfold Codex.run_codex_streaming
  rw [Codex.codexLoop_append pre hpre]
  simp [Codex.codexLoop, Codex.handle_codex_event]

/-- **C3, witness**: a stream with a stderr line and an undecodable
stdout line, then `turn.failed{error:"boom"}`, then more stream and
exit 0: the call fails with reason exactly `"boom"`. -/
theorem c3_turn_failed_aborts_witness :
    Codex.run_codex_streaming (R := RawReviewerOutput)
        [Codex.CodexIOItem.errLine "warning", Codex.CodexIOItem.outLine Codex.CodexLine.garbage,
         Codex.CodexIOItem.outLine (Codex.CodexLine.event (Codex.CodexEvent.TurnFailed "boom")),
         Codex.CodexIOItem.outEof]
        0
      = { outcome := Except.error (AdapterError.turnFailed "boom")
          reaped := false, unread := [Codex.CodexIOItem.outEof] } :=
  c3_turn_failed_aborts
    [Codex.CodexIOItem.errLine "warning", Codex.CodexIOItem.outLine Codex.CodexLine.garbage]
    [Codex.CodexIOItem.outEof] "boom" 0 (by decide)

/-- **C4, counterexample.**  The claim says every call on every outcome
drains and reaps the child before returning.  A codex call aborted by
`turn.failed` returns with the child unreaped (`reaped = false`, the
`?` at codex.rs line 142 skips `child.wait()`) and the rest of the
stream unread. -/
theorem c4_counterexample :
    Codex.run_codex_streaming (R := RawReviewerOutput)
        [Codex.CodexIOItem.outLine (Codex.CodexLine.event (Codex.CodexEvent.TurnFailed "boom")),
         Codex.CodexIOItem.outEof] 0
      = { outcome := Except.error (AdapterError.turnFailed "boom")
          reaped := false, unread := [Codex.CodexIOItem.outEof] } := rfl

/-- **C4, amended.**  Calls whose read loop reaches stdout end-of-file
do reap the child before returning, success or failure, in both
adapters; but a `turn.failed` abort (codex) or a mid-stream stdout read
error (either adapter; claude shown) returns immediately, leaving the
remaining stream unread and the child unreaped. -/
theorem c4_amended_drain_reap :
    (∀ (R : Type) (pre post : List (Codex.CodexIOItem R)) (exitCode : Nat),
        (∀ i ∈ pre, Codex.nonAborting i = true) →
        (Codex.run_codex_streaming (pre ++ Codex.CodexIOItem.outEof :: post)
            exitCode).reaped = true) ∧
      (∀ (R : Type) (decode : String → Except String (Claude.ClaudeResponse R))
          (pre post : List Claude.ClaudeIOItem) (exitCode : Nat),
        (∀ i ∈ pre, Claude.noStop i = true) →
        (Claude.run_claude decode (pre ++ Claude.ClaudeIOItem.outEof :: post)
            exitCode).reaped = true) ∧
      (∀ (R : Type) (pre post : List (Codex.CodexIOItem R)) (e : String) (exitCode : Nat),
        (∀ i ∈ pre, Codex.nonAborting i = true) →
        Codex.run_codex_streaming
            (pre ++ Codex.CodexIOItem.outLine
                (Codex.CodexLine.event (Codex.CodexEvent.TurnFailed e)) :: post)
            exitCode
          = { outcome := Except.error (AdapterError.turnFailed e)
              reaped := false, unread := post }) ∧
      (∀ (R : Type) (decode : String → Except String (Claude.ClaudeResponse R))
          (pre post : List Claude.ClaudeIOItem) (msg : String) (exitCode : Nat),
        (∀ i ∈ pre, Claude.noStop i = true) →
        Claude.run_claude decode (pre ++ Claude.ClaudeIOItem.outErr msg :: post) exitCode
          = { outcome := Except.error (AdapterError.stdoutReadError msg)
              reaped := false, unread := post }) := by
  refine ⟨?_, ?_, ?_, ?_⟩
  · intro R pre post exitCode hpre
    refine Codex.run_codex_reaped_of_finished _ exitCode
      (Codex.codexScan pre none none).1 (Codex.codexStderr pre) post ?_
    rw [Codex.codexLoop_append pre hpre]
    simp [Codex.codexLoop]
  · intro R decode pre post exitCode hpre
    refine Claude.run_claude_reaped_of_finished decode _ exitCode
      (Claude.claudeStdout pre) (Claude.claudeStderr pre) post ?_
    rw [Claude.claudeLoop_append pre hpre]
    simp [Claude.claudeLoop]
  · intro R pre post e exitCode hpre
    unfold Codex.run_codex_streaming
    rw [Codex.codexLoop_append pre hpre]
    simp [Codex.codexLoop, Codex.handle_codex_event]
  · intro R decode pre post msg exitCode hpre
    unfold Claude.run_claude
    rw [Claude.claudeLoop_append pre hpre]
    simp [Claude.claudeLoop]

/-- **C4, witness** for the amended theorem at concrete traces. -/
theorem c4_amended_drain_reap_witness :
    (Codex.run_codex_streaming (R := RawReviewerOutput)
        [Codex.CodexIOItem.errLine "w", Codex.CodexIOItem.outEof] 3).reaped = true ∧
      (Claude.run_claude (R := RawReviewerOutput) (fun _ => Except.error "unused")
        [Claude.ClaudeIOItem.outLine "garbled", Claude.ClaudeIOItem.outEof] 0).reaped = true ∧
      Codex.run_codex_streaming (R := RawReviewerOutput)
          [Codex.CodexIOItem.outLine
            (Codex.CodexLine.event (Codex.CodexEvent.TurnFailed "x")),
           Codex.CodexIOItem.errEof] 0
        = { outcome := Except.error (AdapterError.turnFailed "x")
            reaped := false, unread := [Codex.CodexIOItem.errEof] } ∧
      Claude.run_claude (R := RawReviewerOutput) (fun _ => Except.error "unused")
          [Claude.ClaudeIOItem.outErr "io broken", Claude.ClaudeIOItem.outEof] 0
        = { outcome := Except.error (AdapterError.stdoutReadError "io broken")
            reaped := false, unread := [Claude.ClaudeIOItem.outEof] } :=
  ⟨c4_amended_drain_reap.1 RawReviewerOutput [Codex.CodexIOItem.errLine "w"] [] 3 (by decide),
   c4_amended_drain_reap.2.1 RawReviewerOutput (fun _ => Except.error "unused")
     [Claude.ClaudeIOItem.outLine "garbled"] [] 0 (by decide),
   c4_amended_drain_reap.2.2.1 RawReviewerOutput [] [Codex.CodexIOItem.errEof] "x" 0
     (by decide),
   c4_amended_drain_reap.2.2.2 RawReviewerOutput (fun _ => Except.error "unused")
     [] [Claude.ClaudeIOItem.outEof] "io broken" 0 (by decide)⟩

/-- **C5, counterexample.**  The claim says both streams are fully
drained before the exit is awaited and the error carries the full
stderr text.  The loop breaks on *stdout* EOF (claude.rs line 75) while
stderr EOF is ignored (line 82): a stderr line arriving after stdout
closes — here `"b"` — is never read, and the non-zero-exit error
carries only `"a"`. -/
theorem c5_counterexample :
    Claude.run_claude (R := RawReviewerOutput) (fun _ => Except.error "unused")
        [Claude.ClaudeIOItem.errLine "a", Claude.ClaudeIOItem.outEof,
         Claude.ClaudeIOItem.errLine "b", Claude.ClaudeIOItem.errEof] 1
      = { outcome := Except.error (AdapterError.processFailed 1 "a")
          reaped := true
          unread := [Claude.ClaudeIOItem.errLine "b", Claude.ClaudeIOItem.errEof] } := rfl

/-- **C5, amended.**  Adapter A's two invocation paths fail a non-zero
exit differently.  A `run_claude` call (fresh runs for either role)
fails with an error carrying the exit code and the stderr text captured
up to the moment stdout reached end-of-file (joined with newlines):
stdout and stderr are read concurrently until then and the exit is
awaited after the loop, but stderr output arriving after stdout closes
goes unread.  A `continue_session` call (continuations) collects both
streams whole via `cmd.output()` — nothing is lost and the child is
reaped — but its error carries only the full stderr text, not the exit
code (claude.rs line 120). -/
theorem c5_amended_nonzero_exit :
    (∀ (R : Type) (decode : String → Except String (Claude.ClaudeResponse R))
        (pre post : List Claude.ClaudeIOItem) (exitCode : Nat),
        exitCode ≠ 0 → (∀ i ∈ pre, Claude.noStop i = true) →
        Claude.run_claude decode (pre ++ Claude.ClaudeIOItem.outEof :: post) exitCode
          = { outcome := Except.error (AdapterError.processFailed exitCode
                (String.intercalate "\n" (Claude.claudeStderr pre)))
              reaped := true, unread := post }) ∧
      (∀ (R : Type) (decode : String → Except String (Claude.ClaudeResponse R))
          (exitCode : Nat) (stdout stderr : String),
        exitCode ≠ 0 →
        Claude.continue_session decode exitCode stdout stderr
          = Except.error (AdapterError.continueFailed stderr)) := by
  constructor
  · intro R decode pre post exitCode hx hpre
    unfold Claude.run_claude
    rw [Claude.claudeLoop_append pre hpre]
    simp [Claude.claudeLoop, hx]
  · intro R decode exitCode stdout stderr hx
    simp [Claude.continue_session, hx]

/-- **C5, witness** for the amended theorem: a fresh run at exit 2 with
one captured stderr line, and a continuation at exit 1 whose error
carries the stderr text only. -/
theorem c5_amended_nonzero_exit_witness :
    Claude.run_claude (R := RawReviewerOutput) (fun _ => Except.error "unused")
        [Claude.ClaudeIOItem.errLine "oops", Claude.ClaudeIOItem.outLine "partial",
         Claude.ClaudeIOItem.outEof] 2
      = { outcome := Except.error (AdapterError.processFailed 2 "oops")
          reaped := true, unread := [] } ∧
      Claude.continue_session (R := RawReviewerOutput) (fun _ => Except.error "unused")
          1 "" "session gone"
        = Except.error (AdapterError.continueFailed "session gone") :=
  ⟨c5_amended_nonzero_exit.1 RawReviewerOutput (fun _ => Except.error "unused")
     [Claude.ClaudeIOItem.errLine "oops", Claude.ClaudeIOItem.outLine "partial"]
     [] 2 (by decide) (by decide),
   c5_amended_nonzero_exit.2 RawReviewerOutput (fun _ => Except.error "unused")
     1 "" "session gone" (by decide)⟩

/-- **C8.**  In both adapters, continuing a role whose session slot is
still empty fails with the no-active-session error, spawns no process
(spawn count 0), and returns the adapter state unchanged — both slots
intact. -/
theorem c8_continue_without_session :
    (∀ (rv : Option String)
        (decode : String → Except String (Claude.ClaudeResponse RawReviewerOutput))
        (exitCode : Nat) (stdout stderr : String),
        Claude.ClaudeAdapter.continue_reviewer
            { reviewer_session_id := none, reviewee_session_id := rv }
            decode exitCode stdout stderr
          = (Except.error (AdapterError.noSession "No reviewer session to continue"),
             { reviewer_session_id := none, reviewee_session_id := rv }, 0)) ∧
      (∀ (rr : Option String)
          (decode : String → Except String (Claude.ClaudeResponse RawRevieweeOutput))
          (exitCode : Nat) (stdout stderr : String),
        Claude.ClaudeAdapter.continue_reviewee
            { reviewer_session_id := rr, reviewee_session_id := none }
            decode exitCode stdout stderr
          = (Except.error (AdapterError.noSession "No reviewee session to continue"),
             { reviewer_session_id := rr, reviewee_session_id := none }, 0)) ∧
      (∀ (rv : Option String) (b : Bool)
          (trace : List (Codex.CodexIOItem RawReviewerOutput)) (exitCode : Nat),
        Codex.CodexAdapter.continue_reviewer
            { reviewer_session_id := none, reviewee_session_id := rv
              event_sender_attached := b }
            trace exitCode
          = (Except.error (AdapterError.noSession "No reviewer session to continue"),
             { reviewer_session_id := none, reviewee_session_id := rv
               event_sender_attached := b }, 0)) ∧
      (∀ (rr : Option String) (b : Bool)
          (trace : List (Codex.CodexIOItem RawRevieweeOutput)) (exitCode : Nat),
        Codex.CodexAdapter.continue_reviewee
            { reviewer_session_id := rr, reviewee_session_id := none
              event_sender_attached := b }
            trace exitCode
          = (Except.error (AdapterError.noSession "No reviewee session to continue"),
             { reviewer_session_id := rr, reviewee_session_id := none
               event_sender_attached := b }, 0)) :=
  ⟨fun _ _ _ _ _ => rfl, fun _ _ _ _ _ => rfl, fun _ _ _ _ => rfl, fun _ _ _ _ => rfl⟩

/-- **C6** (spec-modelled: `src/ai/orchestrator.rs` is absent; the
machine is `rallyStep`, built from the spec's §4.4 table).  In
ReviewerReviewing with the counter at or above the configured maximum,
any non-Approve review outcome — and any reviewer call failure —
transitions to Error; Error is terminal (no trigger leaves it); and
along every trigger sequence from a fresh rally with a positive
maximum, the number of reviewer turns never exceeds that maximum. -/
theorem c6_iteration_bound :
    (∀ (m : RallyMachine) (a : ReviewAction),
        m.state = RallyState.ReviewerReviewing → m.maxIterations ≤ m.iterations →
        a ≠ ReviewAction.Approve →
        (rallyStep m (RallyTrigger.reviewDone a)).state = RallyState.Error) ∧
      (∀ m : RallyMachine, m.state = RallyState.ReviewerReviewing →
        (rallyStep m RallyTrigger.reviewFailed).state = RallyState.Error) ∧
      (∀ (m : RallyMachine) (t : RallyTrigger), m.state = RallyState.Error →
        rallyStep m t = m) ∧
      (∀ (maxIterations : Nat) (ts : List RallyTrigger), 1 ≤ maxIterations →
        reviewerTurns (initRally maxIterations) ts ≤ maxIterations) := by
  refine ⟨?_, ?_, ?_, ?_⟩
  · intro m a hst hmax ha
    obtain ⟨st, it, mx⟩ := m
    simp only [RallyMachine.state] at hst
    subst hst
    simp only [RallyMachine.iterations, RallyMachine.maxIterations] at hmax
    cases a with
    | Approve => exact absurd rfl ha
    | RequestChanges =>
      simp only [rallyStep]
      rw [if_neg (by omega)]
    | Comment =>
      simp only [rallyStep]
      rw [if_neg (by omega)]
  · intro m hst
    obtain ⟨st, it, mx⟩ := m
    simp only [RallyMachine.state] at hst
    subst hst
    simp [rallyStep]
  · intro m t hst
    obtain ⟨st, it, mx⟩ := m
    simp only [RallyMachine.state] at hst
    subst hst
    cases t <;> simp [rallyStep]
  · intro mx ts hmx
    have hinv : RallyInv (initRally mx) := by
      refine ⟨hmx, by simp [initRally], ?_, fun _ => rfl⟩
      intro hx
      simp [initRally] at hx
    simpa [initRally] using reviewerTurns_le ts (initRally mx) hinv

/-- **C6, witness** at a concrete machine (counter 2 of max 2) and a
concrete four-trigger rally with max 2. -/
theorem c6_iteration_bound_witness :
    (rallyStep { state := RallyState.ReviewerReviewing, iterations := 2, maxIterations := 2 }
        (RallyTrigger.reviewDone ReviewAction.RequestChanges)).state = RallyState.Error ∧
      (rallyStep { state := RallyState.ReviewerReviewing, iterations := 2, maxIterations := 2 }
        RallyTrigger.reviewFailed).state = RallyState.Error ∧
      rallyStep { state := RallyState.Error, iterations := 1, maxIterations := 2 }
          RallyTrigger.rallyStart
        = { state := RallyState.Error, iterations := 1, maxIterations := 2 } ∧
      reviewerTurns (initRally 2)
          [RallyTrigger.rallyStart, RallyTrigger.reviewDone ReviewAction.Comment,
           RallyTrigger.fixDone RevieweeStatus.Completed,
           RallyTrigger.reviewDone ReviewAction.Approve] ≤ 2 :=
  ⟨c6_iteration_bound.1 _ ReviewAction.RequestChanges rfl (by decide) (by decide),
   c6_iteration_bound.2.1 _ rfl,
   c6_iteration_bound.2.2.1 _ RallyTrigger.rallyStart rfl,
   c6_iteration_bound.2.2.2 2 _ (by decide)⟩

/-- **C7.**  A clean run with no usable result payload fails with a
"no result" error: in Adapter A (both roles) when the envelope's
`result` field is absent, and in Adapter B when the stream reached
stdout end-of-file without any `turn.completed`-with-result event and
the child exited zero. -/
theorem c7_no_result_fails :
    (∀ sid : String,
        Claude.parse_reviewer_output { session_id := sid, result := none }
          = Except.error (AdapterError.noResult "No result in claude response")) ∧
      (∀ sid : String,
        Claude.parse_reviewee_output { session_id := sid, result := none }
          = Except.error (AdapterError.noResult "No result in claude response")) ∧
      (∀ sid : String,
        Codex.parse_reviewer_output { session_id := sid, result := none }
          = Except.error (AdapterError.noResult "No result in codex response")) ∧
      (∀ sid : String,
        Codex.parse_reviewee_output { session_id := sid, result := none }
          = Except.error (AdapterError.noResult "No result in codex response")) ∧
      (∀ (R : Type) (pre post : List (Codex.CodexIOItem R)),
        (∀ i ∈ pre, Codex.nonAborting i = true ∧ Codex.yieldsResult i = false) →
        Codex.run_codex_streaming (pre ++ Codex.CodexIOItem.outEof :: post) 0
          = { outcome := Except.error
                (AdapterError.noResult "No result received from codex")
              reaped := true, unread := post }) := by
  refine ⟨fun _ => rfl, fun _ => rfl, fun _ => rfl, fun _ => rfl, ?_⟩
  intro R pre post hpre
  have h1 : ∀ i ∈ pre, Codex.nonAborting i = true := fun i hi => (hpre i hi).1
  have h2 : ∀ i ∈ pre, Codex.yieldsResult i = false := fun i hi => (hpre i hi).2
  unfold Codex.run_codex_streaming
  rw [Codex.codexLoop_append pre h1]
  simp [Codex.codexLoop, Codex.codexScan_no_result pre h2]

/-- **C7, witness**: an envelope without `result`, and a codex stream
holding only progress noise before EOF with exit 0. -/
theorem c7_no_result_fails_witness :
    Claude.parse_reviewer_output
        { session_id := "sess-1", result := (none : Option RawReviewerOutput) }
        = Except.error (AdapterError.noResult "No result in claude response") ∧
      Codex.run_codex_streaming (R := RawRevieweeOutput)
          [Codex.CodexIOItem.outLine
            (Codex.CodexLine.event (Codex.CodexEvent.ThreadStarted "th-1")),
           Codex.CodexIOItem.errLine "w", Codex.CodexIOItem.outEof] 0
        = { outcome := Except.error
              (AdapterError.noResult "No result received from codex")
            reaped := true, unread := [] } :=
  ⟨c7_no_result_fails.1 "sess-1",
   c7_no_result_fails.2.2.2.2 RawRevieweeOutput
     [Codex.CodexIOItem.outLine
       (Codex.CodexLine.event (Codex.CodexEvent.ThreadStarted "th-1")),
      Codex.CodexIOItem.errLine "w"]
     [] (by decide)⟩

/-- **C10.**  In Adapter B, a `turn.completed` event carrying a result
observed with no prior `thread.started` still produces a successful
streaming response whose session id is the empty string
(`thread_id.clone().unwrap_or_default()`, codex.rs line 209), and
`run_reviewer` stores that empty string as the reviewer session handle. -/
theorem c10_result_before_thread_started
    (pre : List (Codex.CodexIOItem RawReviewerOutput)) (t : Option String)
    (r : RawReviewerOutput) (ad : Codex.CodexAdapter)
    (hpre : ∀ i ∈ pre, Codex.nonAborting i = true ∧ Codex.startsThread i = false) :
    Codex.run_codex_streaming
        (pre ++ [Codex.CodexIOItem.outLine
                  (Codex.CodexLine.event (Codex.CodexEvent.TurnCompleted t (some r))),
                 Codex.CodexIOItem.outEof]) 0
      = { outcome := Except.ok { session_id := "", result := some r }
          reaped := true, unread := [] } ∧
      Codex.CodexAdapter.run_reviewer ad
          (pre ++ [Codex.CodexIOItem.outLine
                    (Codex.CodexLine.event (Codex.CodexEvent.TurnCompleted t (some r))),
                   Codex.CodexIOItem.outEof]) 0
        = (Codex.parse_reviewer_output { session_id := "", result := some r },
           { ad with reviewer_session_id := some "" }, 1) := by
  have h1 : ∀ i ∈ pre, Codex.nonAborting i = true := fun i hi => (hpre i hi).1
  have h2 : ∀ i ∈ pre, Codex.startsThread i = false := fun i hi => (hpre i hi).2
  have hrun : Codex.run_codex_streaming
      (pre ++ [Codex.CodexIOItem.outLine
                (Codex.CodexLine.event (Codex.CodexEvent.TurnCompleted t (some r))),
               Codex.CodexIOItem.outEof]) 0
      = { outcome := Except.ok { session_id := "", result := some r }
          reaped := true, unread := [] } := by
    unfold Codex.run_codex_streaming
    rw [Codex.codexLoop_append pre h1, Codex.codexScan_no_thread pre h2]
    simp [Codex.codexLoop, Codex.handle_codex_event]
  refine ⟨hrun, ?_⟩
  unfold Codex.CodexAdapter.run_reviewer
  rw [hrun]

/-- **C10, witness**: progress noise, then `turn.completed` with an
approve payload, no `thread.started` anywhere; the stored reviewer
session handle is `some ""`. -/
theorem c10_result_before_thread_started_witness :
    Codex.CodexAdapter.run_reviewer
        { reviewer_session_id := none, reviewee_session_id := none
          event_sender_attached := false }
        [Codex.CodexIOItem.outLine
          (Codex.CodexLine.event (Codex.CodexEvent.TurnStarted (some "t1"))),
         Codex.CodexIOItem.errLine "w",
         Codex.CodexIOItem.outLine
          (Codex.CodexLine.event (Codex.CodexEvent.TurnCompleted (some "t1")
            (some { action := "approve", summary := "LGTM", comments := []
                    blocking_issues := [] }))),
         Codex.CodexIOItem.outEof] 0
      = (Except.ok { action := ReviewAction.Approve, summary := "LGTM"
                     comments := [], blocking_issues := [] },
         { reviewer_session_id := some "", reviewee_session_id := none
           event_sender_attached := false }, 1) := by
  have h := (c10_result_before_thread_started
    [Codex.CodexIOItem.outLine
      (Codex.CodexLine.event (Codex.CodexEvent.TurnStarted (some "t1"))),
     Codex.CodexIOItem.errLine "w"]
    (some "t1")
    { action := "approve", summary := "LGTM", comments := [], blocking_issues := [] }
    { reviewer_session_id := none, reviewee_session_id := none
      event_sender_attached := false }
    (by decide)).2
  exact h

/-- **C9, counterexample.**  The claim says a full channel never blocks
the originating adapter call.  `send_event` awaits
`tokio::sync::mpsc::Sender::send`, which on an open channel at capacity
suspends the caller: at a channel of capacity 1 holding 1 queued event,
the send blocks. -/
theorem c9_counterexample :
    send_event (some { capacity := 1, queued := 1, closed := false })
      = SendDisposition.blocked := rfl

/-- **C9, amended.**  The channel never alters the call's *result*: a
closed channel's send error is discarded (the call continues,
unaffected) and a channel with capacity delivers; but an open channel
at capacity blocks the adapter call until space frees — best-effort in
outcome, not in timing. -/
theorem c9_amended_best_effort :
    (∀ ch : EventChannel, ch.closed = true →
        send_event (some ch) = SendDisposition.discarded) ∧
      (∀ ch : EventChannel, ch.closed = false → ch.queued < ch.capacity →
        send_event (some ch) = SendDisposition.delivered) ∧
      (∀ ch : EventChannel, ch.closed = false → ¬ ch.queued < ch.capacity →
        send_event (some ch) = SendDisposition.blocked) ∧
      send_event none = SendDisposition.notAttached := by
  refine ⟨?_, ?_, ?_, rfl⟩
  · intro ch h
    simp [send_event, channel_send, h]
  · intro ch h1 h2
    simp [send_event, channel_send, h1, h2]
  · intro ch h1 h2
    simp [send_event, channel_send, h1, h2]

/-- **C9, witness** for the amended theorem at concrete channel states. -/
theorem c9_amended_best_effort_witness :
    send_event (some { capacity := 4, queued := 0, closed := true })
        = SendDisposition.discarded ∧
      send_event (some { capacity := 4, queued := 2, closed := false })
        = SendDisposition.delivered ∧
      send_event (some { capacity := 4, queued := 4, closed := false })
        = SendDisposition.blocked :=
  ⟨c9_amended_best_effort.1 _ rfl,
   c9_amended_best_effort.2.1 _ rfl (by decide),
   c9_amended_best_effort.2.2.1 _ rfl (by decide)⟩

end Octorus
